import Mathlib

/-!
Verification of the rule evaluation and fix-application engine of a
SQL linter, against its specification.

The syntax-tree data model and rule L036 are translated directly from
the source (`src/sqlfluff/core/rules/std/L036.py`); the surrounding
engine (linter loop, crawler, rule registry), whose source is not part
of this excerpt, is modelled from the specification where a claim
needs it (each such definition is marked `Modelled from the spec`).
-/

/-- Source line/column pair carried by every node
(`PositionMarker` in the source; only carried through here). -/
structure PosMarker where
  line : Nat
  col : Nat
deriving DecidableEq

/-- Syntax tree node (`BaseSegment`): a type tag, a name, raw text
(meaningful on leaves), a meta flag, a position marker and an ordered
list of children (empty for leaves). -/
inductive Segment where
  | mk (typ : String) (name : String) (raw : String) (is_meta : Bool)
       (pos_marker : PosMarker) (segments : List Segment)

mutual

def segDecEq : (a b : Segment) → Decidable (a = b)
  | .mk t1 n1 r1 m1 p1 s1, .mk t2 n2 r2 m2 p2 s2 =>
    match segListDecEq s1 s2 with
    | isFalse h => isFalse (fun he => by cases he; exact h rfl)
    | isTrue h6 =>
      if h : t1 = t2 ∧ n1 = n2 ∧ r1 = r2 ∧ m1 = m2 ∧ p1 = p2 then
        isTrue (by obtain ⟨h1, h2, h3, h4, h5⟩ := h; subst h1 h2 h3 h4 h5 h6; rfl)
      else
        isFalse (fun he => by cases he; exact h ⟨rfl, rfl, rfl, rfl, rfl⟩)

def segListDecEq : (a b : List Segment) → Decidable (a = b)
  | [], [] => isTrue rfl
  | [], _ :: _ => isFalse (by simp)
  | _ :: _, [] => isFalse (by simp)
  | a :: as, b :: bs =>
    match segDecEq a b, segListDecEq as bs with
    | isTrue h1, isTrue h2 => isTrue (by rw [h1, h2])
    | isFalse h1, _ => isFalse (fun he => by injection he with hh ht; exact h1 hh)
    | _, isFalse h2 => isFalse (fun he => by injection he with hh ht; exact h2 ht)

end

instance : DecidableEq Segment := segDecEq

def Segment.typ : Segment → String
  | .mk t _ _ _ _ _ => t

def Segment.name : Segment → String
  | .mk _ n _ _ _ _ => n

def Segment.raw : Segment → String
  | .mk _ _ r _ _ _ => r

def Segment.is_meta : Segment → Bool
  | .mk _ _ _ m _ _ => m

def Segment.pos_marker : Segment → PosMarker
  | .mk _ _ _ _ p _ => p

def Segment.segments : Segment → List Segment
  | .mk _ _ _ _ _ cs => cs

/-- `BaseSegment.is_type`: membership of the node's type tag in the
given types; the Python method is variadic, calls with several type
tags are embedded as disjunctions of this single-tag version. -/
def Segment.is_type (s : Segment) (t : String) : Bool := s.typ == t

mutual

/-- `BaseSegment.raw_segments`: the leaves of the subtree, in source order. -/
def Segment.raw_segments : Segment → List Segment
  | .mk t n r m p [] => [.mk t n r m p []]
  | .mk _ _ _ _ _ (c :: cs) => rawSegmentsList (c :: cs)

def rawSegmentsList : List Segment → List Segment
  | [] => []
  | s :: rest => s.raw_segments ++ rawSegmentsList rest

end

/-- `BaseSegment.raw` on a non-leaf: the concatenated raw text of the
leaves of the subtree (structural-fidelity invariant of the spec). -/
def Segment.rawAll (s : Segment) : String :=
  (s.raw_segments.map Segment.raw).foldl (· ++ ·) ""

/-- Modelled from the spec: `is_code` on raw segments (not in the
excerpt) — a raw code node is one that is neither whitespace, newline,
comment nor a meta marker. -/
def Segment.is_code (s : Segment) : Bool :=
  !(s.is_type "whitespace" || s.is_type "newline" || s.is_type "comment" || s.is_meta)

/-- The tag of a `LintFix` edit operation (first argument of the
`LintFix` constructor in the source: "delete", "create", "edit"). -/
inductive FixKind where
  | delete
  | create
  | edit
deriving DecidableEq

/-- `LintFix`: a tagged edit operation over nodes.  `edit_segments` is
empty for a delete, the single created node for a create, and the
replacement sequence for an edit. -/
structure LintFix where
  fix_kind : FixKind
  anchor : Segment
  edit_segments : List Segment
deriving DecidableEq

/-- `LintResult`: an anchor node, an ordered list of fixes and an
optional description. -/
structure LintResult where
  anchor : Segment
  fixes : List LintFix
  description : Option String
deriving DecidableEq

/-- Python list indexing (`l[i]`): negative indices address from the
end; out-of-range access (which raises in Python) yields `none`. -/
def pyGet (l : List Segment) (i : Int) : Option Segment :=
  if 0 ≤ i then l.get? i.toNat
  else if (-i).toNat ≤ l.length then l.get? (l.length - (-i).toNat) else none

/-- Python `list.index(x)`: the first index holding `x`, `none` (a
`ValueError` in Python) when absent. -/
def pyIndex (l : List Segment) (x : Segment) : Option Nat :=
  let i := l.findIdx (· == x)
  if i < l.length then some i else none

/-- `BaseSegment.select_children(start_seg, select_if, loop_while)`:
iterate the direct children strictly after the first occurrence of
`start_seg` (from the first child when `start_seg` is `none`), stop at
the first child failing `loop_while`, and keep those satisfying
`select_if`. -/
def select_children (segment : Segment) (start_seg : Option Segment)
    (select_if : Segment → Bool) (loop_while : Segment → Bool) : List Segment :=
  let rest := match start_seg with
    | none => segment.segments
    | some s => (segment.segments.dropWhile (fun c => !(c == s))).drop 1
  (rest.takeWhile loop_while).filter select_if

/-- `SelectTargetsInfo` (L036): indices into a select clause's direct
children — the SELECT keyword, the first newline, the first select
target, the first whitespace after the first newline (each `-1` when
absent) — plus all select-target children in order. -/
structure SelectTargetsInfo where
  select_idx : Int
  first_new_line_idx : Int
  first_select_target_idx : Int
  first_whitespace_idx : Int
  select_targets : List Segment
deriving DecidableEq

/-- First update of one `_get_indexes` iteration: collect a
select-target child and record the index of the first one. -/
def stepTargets (fname_idx : Int) (seg : Segment) (st : SelectTargetsInfo) :
    SelectTargetsInfo :=
  if seg.is_type "select_clause_element" then
    { st with
      select_targets := st.select_targets ++ [seg],
      first_select_target_idx :=
        if st.first_select_target_idx == -1 then fname_idx
        else st.first_select_target_idx }
  else st

/-- Second update: record the index of the first `SELECT` keyword. -/
def stepSelectIdx (fname_idx : Int) (seg : Segment) (st : SelectTargetsInfo) :
    SelectTargetsInfo :=
  if seg.is_type "keyword" && seg.name == "SELECT" && st.select_idx == -1 then
    { st with select_idx := fname_idx }
  else st

/-- Third update: record the index of the first newline. -/
def stepNewline (fname_idx : Int) (seg : Segment) (st : SelectTargetsInfo) :
    SelectTargetsInfo :=
  if seg.is_type "newline" && st.first_new_line_idx == -1 then
    { st with first_new_line_idx := fname_idx }
  else st

/-- Fourth update: record the index of the first whitespace after the
first newline (TRICKY comment in the source: whitespace prior to the
first newline is ignored). -/
def stepWhitespace (fname_idx : Int) (seg : Segment) (st : SelectTargetsInfo) :
    SelectTargetsInfo :=
  if seg.is_type "whitespace" && st.first_new_line_idx != -1
      && st.first_whitespace_idx == -1 then
    { st with first_whitespace_idx := fname_idx }
  else st

/-- One iteration of the scanning loop of `Rule_L036._get_indexes`
at child index `fname_idx`: the four updates applied sequentially,
exactly as in the source. -/
def getIndexesStep (fname_idx : Int) (seg : Segment) (st : SelectTargetsInfo) :
    SelectTargetsInfo :=
  stepWhitespace fname_idx seg
    (stepNewline fname_idx seg
      (stepSelectIdx fname_idx seg
        (stepTargets fname_idx seg st)))

def getIndexesLoop : Int → List Segment → SelectTargetsInfo → SelectTargetsInfo
  | _, [], st => st
  | i, seg :: rest, st => getIndexesLoop (i + 1) rest (getIndexesStep i seg st)

/-- `Rule_L036._get_indexes`. -/
def get_indexes (segment : Segment) : SelectTargetsInfo :=
  getIndexesLoop 0 segment.segments ⟨-1, -1, -1, -1, []⟩

/-- `BaseRule.make_newline`: a fresh newline segment at the given position. -/
def make_newline (pos_marker : PosMarker) : Segment :=
  .mk "newline" "newline" "\n" false pos_marker []

/-- `BaseRule.make_whitespace`: a fresh whitespace segment with the
given raw text at the given position. -/
def make_whitespace (raw : String) (pos_marker : PosMarker) : Segment :=
  .mk "whitespace" "whitespace" raw false pos_marker []

/-- The `for i, select_target in enumerate(...)` loop of
`Rule_L036._eval_multiple_select_target_elements`, building, per
target, the deletions of the preceding whitespace run followed by the
creation of a newline before the target.  `i` enumerates
`info.select_targets`; the list argument is the remaining suffix. -/
def multiFixLoop (segment : Segment) (info : SelectTargetsInfo) :
    Nat → List Segment → List LintFix
  | _, [] => []
  | i, select_target :: rest =>
    let start_seg : Option Segment :=
      if i == 0 then pyGet segment.segments info.select_idx
      else info.select_targets.get? (i - 1)
    let ws_to_delete := select_children segment start_seg
      (fun s => s.is_type "whitespace")
      (fun s => s.is_type "whitespace" || s.is_type "comma" || s.is_meta)
    (ws_to_delete.map (fun ws => LintFix.mk .delete ws []))
      ++ [LintFix.mk .create select_target [make_newline select_target.pos_marker]]
      ++ multiFixLoop segment info (i + 1) rest

/-- `Rule_L036._eval_multiple_select_target_elements`. -/
def eval_multiple_select_target_elements (select_targets_info : SelectTargetsInfo)
    (segment : Segment) : Option LintResult :=
  if select_targets_info.first_new_line_idx == -1 then
    -- there are multiple select targets but no new lines
    some { anchor := segment,
           fixes := multiFixLoop segment select_targets_info 0
             select_targets_info.select_targets,
           description := none }
  else none

/-- `Rule_L036._eval_single_select_target_element`.  The two
`pyGet` lookups cannot fail when the chained index condition holds
(the indices are produced in range by `get_indexes`); the `none`
fallback is unreachable. -/
def eval_single_select_target_element (select_targets_info : SelectTargetsInfo)
    (select_clause : Segment) (parent_stack : List Segment) : Option LintResult :=
  let is_wildcard := select_clause.segments.any (fun segment =>
    segment.is_type "select_clause_element" &&
      segment.segments.any (fun sub_segment => sub_segment.is_type "wildcard_expression"))
  if is_wildcard then none
  else if select_targets_info.select_idx < select_targets_info.first_new_line_idx
      ∧ select_targets_info.first_new_line_idx
        < select_targets_info.first_select_target_idx then
    -- there is a newline between select and select target
    match pyGet select_clause.segments select_targets_info.first_new_line_idx,
          pyGet select_clause.segments select_targets_info.first_select_target_idx with
    | some nl_seg, some target_seg =>
      let insert_buff := [make_whitespace " " nl_seg.pos_marker, target_seg,
        make_newline nl_seg.pos_marker]
      -- Replace "newline" with <<select_target>>, "newline";
      -- delete the first select target from its original location.
      let fixes := [LintFix.mk .edit nl_seg insert_buff,
        LintFix.mk .delete target_seg []]
      let fixes :=
        match parent_stack.getLast? with
        | some select_stmt =>
          if select_stmt.typ == "select_statement" then
            match pyIndex select_stmt.segments select_clause with
            | some select_clause_idx =>
              match select_stmt.segments.get? (select_clause_idx + 1) with
              | some nxt =>
                -- the select_clause is immediately followed by a newline:
                -- delete it to avoid leaving behind an empty line after fix
                if nxt.typ == "newline" then fixes ++ [LintFix.mk .delete nxt []]
                else fixes
              | none => fixes
            | none => fixes
          else fixes
        | none => fixes
      some { anchor := select_clause, fixes := fixes, description := none }
    | _, _ => none
  else none

/-- `Rule_L036._eval`: dispatch on select clauses by number of select
targets. -/
def Rule_L036_eval (segment : Segment) (parent_stack : List Segment) :
    Option LintResult :=
  if segment.is_type "select_clause" then
    let select_targets_info := get_indexes segment
    if select_targets_info.select_targets.length == 1 then
      eval_single_select_target_element select_targets_info segment parent_stack
    else if 1 < select_targets_info.select_targets.length then
      eval_multiple_select_target_elements select_targets_info segment
    else none
  else none

/-! ### Claim-side predicates over a clause's direct children -/

/-- A `keyword` child named `SELECT` (the scanning criterion of
`select_idx` in `_get_indexes`). -/
def isSelectKeyword (seg : Segment) : Bool :=
  seg.is_type "keyword" && seg.name == "SELECT"

def hasSelectKeyword (l : List Segment) : Bool := l.any isSelectKeyword

def hasNewline (l : List Segment) : Bool := l.any (fun s => s.is_type "newline")

def hasSelectTarget (l : List Segment) : Bool :=
  l.any (fun s => s.is_type "select_clause_element")

/-- Some whitespace child occurs strictly after the first newline
child (the scanning criterion of `first_whitespace_idx`). -/
def hasWhitespaceAfterNewline : List Segment → Bool
  | [] => false
  | seg :: rest =>
      if seg.is_type "newline" then rest.any (fun s => s.is_type "whitespace")
      else hasWhitespaceAfterNewline rest

/-- Some select-target child of the clause contains a wildcard
expression (the `is_wildcard` scan of
`_eval_single_select_target_element`). -/
def containsWildcardTarget (select_clause : Segment) : Bool :=
  select_clause.segments.any (fun segment =>
    segment.is_type "select_clause_element" &&
      segment.segments.any (fun sub_segment => sub_segment.is_type "wildcard_expression"))

/-- The run of whitespace children of `segment` encountered strictly
after the child `prev`, scanning across whitespace, comma and meta
children and stopping at the first child of any other kind. -/
def whitespace_run_after (segment : Segment) (prev : Segment) : List Segment :=
  (((segment.segments.dropWhile (fun c => !(c == prev))).drop 1).takeWhile
      (fun s => s.is_type "whitespace" || s.is_type "comma" || s.is_meta)).filter
    (fun s => s.is_type "whitespace")

/-- The deletion of the newline immediately following `select_clause`
inside its parent select statement, when the innermost parent is a
select statement and such a trailing newline exists; empty otherwise. -/
def following_newline_fix (parent_stack : List Segment) (select_clause : Segment) :
    List LintFix :=
  match parent_stack.getLast? with
  | some select_stmt =>
    if select_stmt.typ == "select_statement" then
      match pyIndex select_stmt.segments select_clause with
      | some select_clause_idx =>
        match select_stmt.segments.get? (select_clause_idx + 1) with
        | some nxt => if nxt.typ == "newline" then [LintFix.mk .delete nxt []] else []
        | none => []
      | none => []
    else []
  | none => []

/-- The fix list the multi-target claim describes: for each target in
order (paired with its predecessor — the SELECT keyword for the first),
delete the whitespace run after the predecessor, then create a newline
before the target. -/
def claim_multi_fixes (segment : Segment) (kw : Segment) (targets : List Segment) :
    List LintFix :=
  (((kw :: targets).zip targets).map (fun p =>
    ((whitespace_run_after segment p.1).map (fun ws => LintFix.mk .delete ws []))
      ++ [LintFix.mk .create p.2 [make_newline p.2.pos_marker]])).flatten

/-! ### Modelled engine: fix loop with runaway limit (spec section 4.3) -/

/-- Modelled from the spec: the behaviour of one lint-and-fix pass as
seen by the loop — whether the pass produced any fixable results, and
the tree it rewrites to.  The linter loop source is not part of the
excerpt. -/
structure FixLoopRule where
  has_fixable : Segment → Bool
  apply_fixes : Segment → Segment

/-- Modelled from the spec: the fix loop of the linter
(`Linter.lint_string` in fix mode, not in the excerpt) with explicit
remaining iteration budget.  It terminates when an iteration produces
zero fixable results; when the iteration count reaches the configured
`runaway_limit`, all fixes from the run are discarded and the original
(pre-fix) tree is returned. -/
def fix_loop_aux (rule : FixLoopRule) (original : Segment) :
    Nat → Segment → Segment
  | 0, _ => original
  | n + 1, tree =>
      if rule.has_fixable tree then fix_loop_aux rule original n (rule.apply_fixes tree)
      else tree

def fix_loop (rule : FixLoopRule) (runaway_limit : Nat) (tree : Segment) : Segment :=
  fix_loop_aux rule tree runaway_limit tree

/-- The tree after `n` fix-application passes, ignoring termination. -/
def iterate_fixes (rule : FixLoopRule) : Nat → Segment → Segment
  | 0, tree => tree
  | n + 1, tree => iterate_fixes rule n (rule.apply_fixes tree)

/-- A pass that always reports a fixable result and keeps rewriting
(the behaviour induced by the never-satisfied rule `Rule_T001` of the
tests: every pass pads whitespace and proposes more). -/
def always_fix_rule : FixLoopRule where
  has_fixable := fun _ => true
  apply_fixes := fun t =>
    match t with
    | .mk a b r c d e => .mk a b (r ++ " ") c d e

/-- The parse tree of `SELECT * FROM foo`, abstracted to its raw text
(the loop model never inspects its shape). -/
def tree_select_star : Segment :=
  .mk "file" "" "SELECT * FROM foo" false ⟨1, 1⟩ []

/-! ### Modelled engine: rule evaluation fault capture (spec section 7) -/

/-- Modelled from the spec: a rule as the engine sees it — a code and
an evaluation that either returns results or fails. -/
structure EvalRule where
  code : String
  eval : Segment → Except String (List LintResult)

/-- Modelled from the spec: the engine MUST catch any failure raised
by a rule evaluation and convert it into a single synthetic violation
attributed to that rule code at position (1, 1), rather than aborting
the run; successful evaluations report at their anchor positions.
Violations are `(rule_code, line, column)` tuples (`check_tuples`). -/
def lint_with_rule (rule : EvalRule) (tree : Segment) : List (String × Nat × Nat) :=
  match rule.eval tree with
  | Except.error _ => [(rule.code, 1, 1)]
  | Except.ok results =>
      results.map (fun r => (rule.code, r.anchor.pos_marker.line, r.anchor.pos_marker.col))

/-- The always-raising rule `Rule_T000` of the tests. -/
def raising_rule : EvalRule where
  code := "T000"
  eval := fun _ => Except.error "Catch me or I will deny any linting results from you"

/-- The parse tree of `select 1` (shape immaterial to the capture model). -/
def tree_select_lower_1 : Segment :=
  .mk "file" "" "" false ⟨1, 1⟩
    [.mk "keyword" "select" "select" false ⟨1, 1⟩ [],
     .mk "whitespace" "whitespace" " " false ⟨1, 7⟩ [],
     .mk "literal" "" "1" false ⟨1, 8⟩ []]

/-! ### Modelled engine: unparsable-region filtering (spec section 4.2) -/

/-- `Rule_T002._eval` (from the tests): one violation per raw code
segment of the tree, described `TESTING`, with no fixes. -/
def Rule_T002_eval (root : Segment) : List LintResult :=
  (root.raw_segments.filter Segment.is_code).map
    (fun seg => { anchor := seg, fixes := [], description := some "TESTING" })

mutual

/-- Modelled from the spec: the leaves lying inside an unparsable
region — under a node whose type tag is `unparsable` (the parser marks
regions it could not interpret with that tag). -/
def unparsable_raw_segments : Bool → Segment → List Segment
  | flag, .mk t n r m p [] =>
      if flag || t == "unparsable" then [.mk t n r m p []] else []
  | flag, .mk t _ _ _ _ (c :: cs) =>
      unparsable_raw_list (flag || t == "unparsable") (c :: cs)

def unparsable_raw_list : Bool → List Segment → List Segment
  | _, [] => []
  | flag, s :: rest => unparsable_raw_segments flag s ++ unparsable_raw_list flag rest

end

/-- Modelled from the spec: linting with `Rule_T002` — the engine
filters out violations anchored inside unparsable regions before
reporting. -/
def lint_with_T002 (tree : Segment) : List LintResult :=
  (Rule_T002_eval tree).filter
    (fun r => !((unparsable_raw_segments false tree).contains r.anchor))

/-- Modelled from the spec: the parse tree of `SELECT 1` — fully
parsable, no unparsable region. -/
def tree_select_1 : Segment :=
  .mk "file" "" "" false ⟨1, 1⟩
    [.mk "statement" "" "" false ⟨1, 1⟩
      [.mk "select_statement" "" "" false ⟨1, 1⟩
        [.mk "select_clause" "" "" false ⟨1, 1⟩
          [.mk "keyword" "SELECT" "SELECT" false ⟨1, 1⟩ [],
           .mk "whitespace" "whitespace" " " false ⟨1, 7⟩ [],
           .mk "select_clause_element" "" "" false ⟨1, 8⟩
             [.mk "literal" "" "1" false ⟨1, 8⟩ []]]]]]

/-- Modelled from the spec: the parse tree of `asd asdf sdfg` — the
parser cannot interpret it, so its content sits under an `unparsable`
node. -/
def tree_unparsable : Segment :=
  .mk "file" "" "" false ⟨1, 1⟩
    [.mk "unparsable" "" "" false ⟨1, 1⟩
      [.mk "word" "" "asd" false ⟨1, 1⟩ [],
       .mk "whitespace" "whitespace" " " false ⟨1, 4⟩ [],
       .mk "word" "" "asdf" false ⟨1, 5⟩ [],
       .mk "whitespace" "whitespace" " " false ⟨1, 9⟩ [],
       .mk "word" "" "sdfg" false ⟨1, 10⟩ []]]

/-! ### Modelled engine: rule selection (spec sections 3 and 4.4) -/

/-- Selection metadata of a registered rule. -/
structure RuleMeta where
  code : String
  name : String
  aliases : List String
  groups : List String
deriving DecidableEq

/-- Modelled from the spec: resolution of one selection token inside
`RuleSet.get_rulepack` (not in the excerpt) — a literal code match
always wins over a same-text name, alias or group match; only when no
rule has the token as its code are name, alias and group matches
taken. -/
def matching_rules (rules : List RuleMeta) (token : String) : List RuleMeta :=
  if rules.any (fun r => r.code == token) then
    rules.filter (fun r => r.code == token)
  else
    rules.filter (fun r =>
      r.name == token || r.aliases.contains token || r.groups.contains token)

/-- Order-preserving deduplication by rule code. -/
def dedup_by_code (seen : List String) : List RuleMeta → List RuleMeta
  | [] => []
  | r :: rest =>
      if seen.contains r.code then dedup_by_code seen rest
      else r :: dedup_by_code (r.code :: seen) rest

def splitCommaAux (cur : List Char) : List Char → List String
  | [] => [String.mk cur.reverse]
  | c :: rest =>
      if c = ',' then String.mk cur.reverse :: splitCommaAux [] rest
      else splitCommaAux (c :: cur) rest

/-- Comma-separated token list of a selection config string. -/
def splitComma (s : String) : List String := splitCommaAux [] s.data

/-- Modelled from the spec: the codes of the resolved rule pack — the
ordered, deduplicated rules resolved from the include tokens, minus
every rule resolved from the exclude tokens. -/
def get_rulepack_codes (rules : List RuleMeta) (rules_config exclude_config : String) :
    List String :=
  let included := dedup_by_code [] ((splitComma rules_config).flatMap (matching_rules rules))
  let excluded := (splitComma exclude_config).flatMap (matching_rules rules)
  (included.filter (fun r => !(excluded.any (fun e => e.code == r.code)))).map
    (fun r => r.code)

/-- `Rule_T010` of the selection test: name `fake_basic`, aliases
`fb1` and `foo` (`foo` is also a group of another rule). -/
def rule_T010 : RuleMeta :=
  { code := "T010", name := "fake_basic", aliases := ["fb1", "foo"],
    groups := ["all", "test"] }

/-- `Rule_T011` of the selection test. -/
def rule_T011 : RuleMeta :=
  { code := "T011", name := "fake_other", aliases := ["fb2"],
    groups := ["all", "test", "foo"] }

/-- `Rule_T012` of the selection test: its name `T011` collides with
the code of another rule. -/
def rule_T012 : RuleMeta :=
  { code := "T012", name := "T011", aliases := [],
    groups := ["all", "foo", "fake_other"] }

def selection_test_rules : List RuleMeta := [rule_T010, rule_T011, rule_T012]

/-! ### Modelled engine: registration and configuration validation (spec section 7) -/

/-- A rule class as seen at registration: `groups = none` models a
class without a groups attribute at all. -/
structure RuleClassMeta where
  code : String
  groups : Option (List String)
deriving DecidableEq

/-- Modelled from the spec: `RuleSet.register` (not in the excerpt)
validates at registration time, with an assertion-style error, that
the rule class declares a non-empty `groups` containing the literal
group `all`; only then is the class stored. -/
def register (ruleset : List RuleClassMeta) (rule : RuleClassMeta) :
    Except String (List RuleClassMeta) :=
  match rule.groups with
  | none => Except.error (rule.code ++ ": rule class does not define a groups attribute")
  | some gs =>
      if gs.isEmpty then
        Except.error (rule.code ++ ": rule groups must be non-empty")
      else if !(gs.contains "all") then
        Except.error (rule.code ++ ": rule groups must include the group all")
      else Except.ok (ruleset ++ [rule])

def except_is_ok {e a : Type} : Except e a → Bool
  | Except.ok _ => true
  | Except.error _ => false

/-- A declared enum-validated configuration keyword and its
enumeration of valid values. -/
structure ConfigKeywordSpec where
  keyword : String
  allowed : List String
deriving DecidableEq

/-- Modelled from the spec: the six enum-validated keywords the spec
names.  The spec fixes the keywords, not every member value; the
member lists below record plausible enumerations, none containing
`blah`. -/
def rules_validation_table : List ConfigKeywordSpec :=
  [{ keyword := "capitalisation_policy",
     allowed := ["consistent", "upper", "lower", "capitalise"] },
   { keyword := "extended_capitalisation_policy",
     allowed := ["consistent", "upper", "lower", "pascal", "capitalise"] },
   { keyword := "aliasing", allowed := ["implicit", "explicit"] },
   { keyword := "allow_scalar", allowed := ["True", "False"] },
   { keyword := "single_table_references",
     allowed := ["consistent", "qualified", "unqualified"] },
   { keyword := "unquoted_identifiers_policy",
     allowed := ["all", "aliases", "column_aliases"] }]

/-- Modelled from the spec: `RuleSet.get_rulepack` validates every
configured keyword value against the declared enumeration before the
pack is built and before any linting occurs; the first value outside
its enumeration aborts the build with a validation error. -/
def validate_configs (table : List ConfigKeywordSpec) :
    List (String × String) → Except String Unit
  | [] => Except.ok ()
  | (k, v) :: rest =>
      match table.find? (fun sp => sp.keyword == k) with
      | some sp =>
          if sp.allowed.contains v then validate_configs table rest
          else Except.error ("Invalid option " ++ v ++ " for " ++ k)
      | none => validate_configs table rest

/-! ### Concrete trees for witnesses and the counterexample -/

def kw_select : Segment := .mk "keyword" "SELECT" "SELECT" false ⟨1, 1⟩ []

def cex_newline_0 : Segment := .mk "newline" "newline" "\x0a" false ⟨1, 1⟩ []

def cex_newline_2 : Segment := .mk "newline" "newline" "\x0a" false ⟨2, 7⟩ []

def cex_target : Segment :=
  .mk "select_clause_element" "" "" false ⟨3, 1⟩
    [.mk "column_reference" "" "a" false ⟨3, 1⟩ []]

/-- A select clause whose first child is a newline, before the SELECT
keyword: children are newline, SELECT, newline, target. -/
def cex_clause : Segment :=
  .mk "select_clause" "" "" false ⟨1, 1⟩
    [cex_newline_0, kw_select, cex_newline_2, cex_target]

def w4_newline : Segment := .mk "newline" "newline" "\x0a" false ⟨1, 7⟩ []

def w4_ws : Segment := .mk "whitespace" "whitespace" "  " false ⟨2, 1⟩ []

def w4_target : Segment :=
  .mk "select_clause_element" "" "" false ⟨2, 3⟩
    [.mk "column_reference" "" "a" false ⟨2, 3⟩ []]

/-- `SELECT\n  a` as a select clause: keyword, newline, whitespace, target. -/
def w4_clause : Segment :=
  .mk "select_clause" "" "" false ⟨1, 1⟩ [kw_select, w4_newline, w4_ws, w4_target]

def w4_stmt_newline : Segment := .mk "newline" "newline" "\x0a" false ⟨2, 4⟩ []

def w4_from : Segment := .mk "from_clause" "" "FROM x" false ⟨3, 1⟩ []

/-- The statement around `w4_clause`: clause, newline, from clause. -/
def w4_stmt : Segment :=
  .mk "select_statement" "" "" false ⟨1, 1⟩ [w4_clause, w4_stmt_newline, w4_from]

def w5_ws1 : Segment := .mk "whitespace" "whitespace" " " false ⟨1, 7⟩ []

def w5_t1 : Segment :=
  .mk "select_clause_element" "" "" false ⟨1, 8⟩
    [.mk "column_reference" "" "a" false ⟨1, 8⟩ []]

def w5_comma : Segment := .mk "comma" "comma" "," false ⟨1, 9⟩ []

def w5_ws2 : Segment := .mk "whitespace" "whitespace" " " false ⟨1, 10⟩ []

def w5_t2 : Segment :=
  .mk "select_clause_element" "" "" false ⟨1, 11⟩
    [.mk "column_reference" "" "b" false ⟨1, 11⟩ []]

/-- `SELECT a, b` on one line: two targets, no newline child. -/
def w5_clause : Segment :=
  .mk "select_clause" "" "" false ⟨1, 1⟩
    [kw_select, w5_ws1, w5_t1, w5_comma, w5_ws2, w5_t2]

def w9_newline : Segment := .mk "newline" "newline" "\x0a" false ⟨1, 7⟩ []

/-- Two targets with a newline child already present. -/
def w9_clause : Segment :=
  .mk "select_clause" "" "" false ⟨1, 1⟩
    [kw_select, w9_newline, w5_t1, w5_comma, w5_t2]

/-- A select clause with no select-target child at all. -/
def w10_clause : Segment :=
  .mk "select_clause" "" "" false ⟨1, 1⟩ [kw_select, w5_ws1]

/-! ### Per-field behaviour of one `_get_indexes` iteration -/

@[simp]
theorem stepTargets_select_idx (i : Int) (seg : Segment) (st : SelectTargetsInfo) :
    (stepTargets i seg st).select_idx = st.select_idx := by
  unfold stepTargets; split <;> rfl

@[simp]
theorem stepTargets_first_new_line_idx (i : Int) (seg : Segment) (st : SelectTargetsInfo) :
    (stepTargets i seg st).first_new_line_idx = st.first_new_line_idx := by
  unfold stepTargets; split <;> rfl

@[simp]
theorem stepTargets_first_whitespace_idx (i : Int) (seg : Segment) (st : SelectTargetsInfo) :
    (stepTargets i seg st).first_whitespace_idx = st.first_whitespace_idx := by
  unfold stepTargets; split <;> rfl

@[simp]
theorem stepTargets_first_select_target_idx (i : Int) (seg : Segment) (st : SelectTargetsInfo) :
    (stepTargets i seg st).first_select_target_idx =
      if seg.is_type "select_clause_element" && st.first_select_target_idx == -1 then i
      else st.first_select_target_idx := by
  unfold stepTargets
  by_cases h : seg.is_type "select_clause_element" <;>
    by_cases h2 : st.first_select_target_idx == -1 <;> simp [h, h2]

@[simp]
theorem stepTargets_select_targets (i : Int) (seg : Segment) (st : SelectTargetsInfo) :
    (stepTargets i seg st).select_targets =
      if seg.is_type "select_clause_element" then st.select_targets ++ [seg]
      else st.select_targets := by
  unfold stepTargets; split <;> simp_all

@[simp]
theorem stepSelectIdx_select_idx (i : Int) (seg : Segment) (st : SelectTargetsInfo) :
    (stepSelectIdx i seg st).select_idx =
      if isSelectKeyword seg && st.select_idx == -1 then i else st.select_idx := by
  unfold stepSelectIdx isSelectKeyword; split <;> simp_all

@[simp]
theorem stepSelectIdx_first_new_line_idx (i : Int) (seg : Segment) (st : SelectTargetsInfo) :
    (stepSelectIdx i seg st).first_new_line_idx = st.first_new_line_idx := by
  unfold stepSelectIdx; split <;> rfl

@[simp]
theorem stepSelectIdx_first_whitespace_idx (i : Int) (seg : Segment) (st : SelectTargetsInfo) :
    (stepSelectIdx i seg st).first_whitespace_idx = st.first_whitespace_idx := by
  unfold stepSelectIdx; split <;> rfl

@[simp]
theorem stepSelectIdx_first_select_target_idx (i : Int) (seg : Segment)
    (st : SelectTargetsInfo) :
    (stepSelectIdx i seg st).first_select_target_idx = st.first_select_target_idx := by
  unfold stepSelectIdx; split <;> rfl

@[simp]
theorem stepSelectIdx_select_targets (i : Int) (seg : Segment) (st : SelectTargetsInfo) :
    (stepSelectIdx i seg st).select_targets = st.select_targets := by
  unfold stepSelectIdx; split <;> rfl

@[simp]
theorem stepNewline_select_idx (i : Int) (seg : Segment) (st : SelectTargetsInfo) :
    (stepNewline i seg st).select_idx = st.select_idx := by
  unfold stepNewline; split <;> rfl

@[simp]
theorem stepNewline_first_new_line_idx (i : Int) (seg : Segment) (st : SelectTargetsInfo) :
    (stepNewline i seg st).first_new_line_idx =
      if seg.is_type "newline" && st.first_new_line_idx == -1 then i
      else st.first_new_line_idx := by
  unfold stepNewline; split <;> simp_all

@[simp]
theorem stepNewline_first_whitespace_idx (i : Int) (seg : Segment) (st : SelectTargetsInfo) :
    (stepNewline i seg st).first_whitespace_idx = st.first_whitespace_idx := by
  unfold stepNewline; split <;> rfl

@[simp]
theorem stepNewline_first_select_target_idx (i : Int) (seg : Segment)
    (st : SelectTargetsInfo) :
    (stepNewline i seg st).first_select_target_idx = st.first_select_target_idx := by
  unfold stepNewline; split <;> rfl

@[simp]
theorem stepNewline_select_targets (i : Int) (seg : Segment) (st : SelectTargetsInfo) :
    (stepNewline i seg st).select_targets = st.select_targets := by
  unfold stepNewline; split <;> rfl

@[simp]
theorem stepWhitespace_select_idx (i : Int) (seg : Segment) (st : SelectTargetsInfo) :
    (stepWhitespace i seg st).select_idx = st.select_idx := by
  unfold stepWhitespace; split <;> rfl

@[simp]
theorem stepWhitespace_first_new_line_idx (i : Int) (seg : Segment) (st : SelectTargetsInfo) :
    (stepWhitespace i seg st).first_new_line_idx = st.first_new_line_idx := by
  unfold stepWhitespace; split <;> rfl

@[simp]
theorem stepWhitespace_first_whitespace_idx (i : Int) (seg : Segment)
    (st : SelectTargetsInfo) :
    (stepWhitespace i seg st).first_whitespace_idx =
      if seg.is_type "whitespace" && st.first_new_line_idx != -1
          && st.first_whitespace_idx == -1 then i
      else st.first_whitespace_idx := by
  unfold stepWhitespace; split <;> simp_all

@[simp]
theorem stepWhitespace_first_select_target_idx (i : Int) (seg : Segment)
    (st : SelectTargetsInfo) :
    (stepWhitespace i seg st).first_select_target_idx = st.first_select_target_idx := by
  unfold stepWhitespace; split <;> rfl

@[simp]
theorem stepWhitespace_select_targets (i : Int) (seg : Segment) (st : SelectTargetsInfo) :
    (stepWhitespace i seg st).select_targets = st.select_targets := by
  unfold stepWhitespace; split <;> rfl

/-- A node typed `whitespace` is not typed `newline`. -/
theorem not_newline_of_whitespace {seg : Segment}
    (h : seg.is_type "whitespace" = true) : seg.is_type "newline" = false := by
  simp only [Segment.is_type, beq_iff_eq] at h ⊢
  simp [h]

/-! ### Characterisation of the `_get_indexes` scan -/

theorem getIndexesLoop_select_targets (l : List Segment) :
    ∀ (i : Int) (st : SelectTargetsInfo),
    (getIndexesLoop i l st).select_targets =
      st.select_targets ++ l.filter (fun s => s.is_type "select_clause_element") := by
  induction l with
  | nil => intro i st; simp [getIndexesLoop]
  | cons seg rest ih =>
    intro i st
    rw [getIndexesLoop, ih]
    by_cases h : seg.is_type "select_clause_element" <;>
      simp [getIndexesStep, h, List.filter_cons]

theorem getIndexesLoop_select_idx_eq_neg_one (l : List Segment) :
    ∀ (i : Int), 0 ≤ i → ∀ (st : SelectTargetsInfo),
    ((getIndexesLoop i l st).select_idx = -1 ↔
      st.select_idx = -1 ∧ hasSelectKeyword l = false) := by
  induction l with
  | nil => intro i _ st; simp [getIndexesLoop, hasSelectKeyword]
  | cons seg rest ih =>
    intro i hi st
    have hne : i ≠ -1 := by omega
    rw [getIndexesLoop, ih (i + 1) (by omega)]
    by_cases hk : isSelectKeyword seg = true
    · by_cases hsel : st.select_idx = -1 <;>
        simp [getIndexesStep, hasSelectKeyword, hk, hsel, hne]
    · simp [getIndexesStep, hasSelectKeyword, hk]

theorem getIndexesLoop_fnl_eq_neg_one (l : List Segment) :
    ∀ (i : Int), 0 ≤ i → ∀ (st : SelectTargetsInfo),
    ((getIndexesLoop i l st).first_new_line_idx = -1 ↔
      st.first_new_line_idx = -1 ∧ hasNewline l = false) := by
  induction l with
  | nil => intro i _ st; simp [getIndexesLoop, hasNewline]
  | cons seg rest ih =>
    intro i hi st
    have hne : i ≠ -1 := by omega
    rw [getIndexesLoop, ih (i + 1) (by omega)]
    by_cases hk : seg.is_type "newline" = true
    · by_cases hnl : st.first_new_line_idx = -1 <;>
        simp [getIndexesStep, hasNewline, hk, hnl, hne]
    · simp [getIndexesStep, hasNewline, hk]

theorem getIndexesLoop_fst_eq_neg_one (l : List Segment) :
    ∀ (i : Int), 0 ≤ i → ∀ (st : SelectTargetsInfo),
    ((getIndexesLoop i l st).first_select_target_idx = -1 ↔
      st.first_select_target_idx = -1 ∧ hasSelectTarget l = false) := by
  induction l with
  | nil => intro i _ st; simp [getIndexesLoop, hasSelectTarget]
  | cons seg rest ih =>
    intro i hi st
    have hne : i ≠ -1 := by omega
    rw [getIndexesLoop, ih (i + 1) (by omega)]
    by_cases hk : seg.is_type "select_clause_element" = true
    · by_cases hst : st.first_select_target_idx = -1 <;>
        simp [getIndexesStep, hasSelectTarget, hk, hst, hne]
    · simp [getIndexesStep, hasSelectTarget, hk]

theorem getIndexesLoop_fws_eq_neg_one (l : List Segment) :
    ∀ (i : Int), 0 ≤ i → ∀ (st : SelectTargetsInfo),
    ((getIndexesLoop i l st).first_whitespace_idx = -1 ↔
      st.first_whitespace_idx = -1 ∧
        (if st.first_new_line_idx = -1 then hasWhitespaceAfterNewline l = false
         else l.any (fun s => s.is_type "whitespace") = false)) := by
  induction l with
  | nil => intro i _ st; simp [getIndexesLoop, hasWhitespaceAfterNewline]
  | cons seg rest ih =>
    intro i hi st
    have hne : i ≠ -1 := by omega
    rw [getIndexesLoop, ih (i + 1) (by omega)]
    by_cases hw : seg.is_type "whitespace" = true
    · have hnotnl := not_newline_of_whitespace hw
      by_cases hnl : st.first_new_line_idx = -1
      · simp [getIndexesStep, hasWhitespaceAfterNewline, hw, hnl, hnotnl, hne]
      · by_cases hws : st.first_whitespace_idx = -1 <;>
          simp [getIndexesStep, hasWhitespaceAfterNewline, hw, hnl, hnotnl, hws, hne]
    · by_cases hk : seg.is_type "newline" = true
      · by_cases hnl : st.first_new_line_idx = -1 <;>
          simp [getIndexesStep, hasWhitespaceAfterNewline, hw, hk, hnl, hne]
      · simp [getIndexesStep, hasWhitespaceAfterNewline, hw, hk]

theorem getIndexesLoop_select_idx_points (l : List Segment) :
    ∀ (i : Int) (st : SelectTargetsInfo),
    (getIndexesLoop i l st).select_idx = st.select_idx ∨
      ∃ (k : Nat) (kw : Segment), l.get? k = some kw ∧ isSelectKeyword kw = true ∧
        (getIndexesLoop i l st).select_idx = i + k := by
  induction l with
  | nil => intro i st; left; rfl
  | cons seg rest ih =>
    intro i st
    rw [getIndexesLoop]
    rcases ih (i + 1) (getIndexesStep i seg st) with h | ⟨k, kw, hget, hkw, hval⟩
    · rw [h]
      by_cases hk : isSelectKeyword seg = true
      · by_cases hsel : st.select_idx = -1
        · right
          exact ⟨0, seg, rfl, hk, by simp [getIndexesStep, hk, hsel]⟩
        · left; simp [getIndexesStep, hk, hsel]
      · left; simp [getIndexesStep, hk]
    · right
      refine ⟨k + 1, kw, by simpa using hget, hkw, ?_⟩
      rw [hval]
      push_cast
      ring

theorem getIndexesLoop_fnl_points (l : List Segment) :
    ∀ (i : Int) (st : SelectTargetsInfo),
    (getIndexesLoop i l st).first_new_line_idx = st.first_new_line_idx ∨
      ∃ (k : Nat) (nl : Segment), l.get? k = some nl ∧ nl.is_type "newline" = true ∧
        (getIndexesLoop i l st).first_new_line_idx = i + k := by
  induction l with
  | nil => intro i st; left; rfl
  | cons seg rest ih =>
    intro i st
    rw [getIndexesLoop]
    rcases ih (i + 1) (getIndexesStep i seg st) with h | ⟨k, nl, hget, hnl, hval⟩
    · rw [h]
      by_cases hk : seg.is_type "newline" = true
      · by_cases hfnl : st.first_new_line_idx = -1
        · right
          exact ⟨0, seg, rfl, hk, by simp [getIndexesStep, hk, hfnl]⟩
        · left; simp [getIndexesStep, hk, hfnl]
      · left; simp [getIndexesStep, hk]
    · right
      refine ⟨k + 1, nl, by simpa using hget, hnl, ?_⟩
      rw [hval]
      push_cast
      ring

theorem getIndexesLoop_fst_points (l : List Segment) :
    ∀ (i : Int) (st : SelectTargetsInfo),
    (getIndexesLoop i l st).first_select_target_idx = st.first_select_target_idx ∨
      ∃ (k : Nat) (tgt : Segment), l.get? k = some tgt ∧
        tgt.is_type "select_clause_element" = true ∧
        (getIndexesLoop i l st).first_select_target_idx = i + k := by
  induction l with
  | nil => intro i st; left; rfl
  | cons seg rest ih =>
    intro i st
    rw [getIndexesLoop]
    rcases ih (i + 1) (getIndexesStep i seg st) with h | ⟨k, tgt, hget, htg, hval⟩
    · rw [h]
      by_cases hk : seg.is_type "select_clause_element" = true
      · by_cases hst : st.first_select_target_idx = -1
        · right
          exact ⟨0, seg, rfl, hk, by simp [getIndexesStep, hk, hst]⟩
        · left; simp [getIndexesStep, hk, hst]
      · left; simp [getIndexesStep, hk]
    · right
      refine ⟨k + 1, tgt, by simpa using hget, htg, ?_⟩
      rw [hval]
      push_cast
      ring

/-- The fix list built by the enumeration loop of
`_eval_multiple_select_target_elements`, resumed at position `n` with
the remaining targets, is the flattened per-target block list paired
with predecessors (`kw` standing for the child at `select_idx`). -/
theorem multiFixLoop_eq (segment : Segment) (info : SelectTargetsInfo) (kw : Segment)
    (hkw : pyGet segment.segments info.select_idx = some kw) :
    ∀ (l : List Segment) (n : Nat), info.select_targets.drop n = l →
    multiFixLoop segment info n l =
      ((((kw :: info.select_targets).drop n).zip l).map (fun p =>
        ((whitespace_run_after segment p.1).map (fun ws => LintFix.mk .delete ws []))
          ++ [LintFix.mk .create p.2 [make_newline p.2.pos_marker]])).flatten := by
  intro l
  induction l with
  | nil => intro n _; simp [multiFixLoop]
  | cons tgt rest ih =>
    intro n hdrop
    have hlen : n < info.select_targets.length := by
      have hc := congrArg List.length hdrop
      simp only [List.length_drop, List.length_cons] at hc
      omega
    have hdrop1 : info.select_targets.drop (n + 1) = rest := by
      have h1 : (info.select_targets.drop n).drop 1 = info.select_targets.drop (n + 1) := by
        rw [List.drop_drop]
      rw [hdrop] at h1
      simpa using h1.symm
    cases n with
    | zero =>
      have htargets : info.select_targets = tgt :: rest := by simpa using hdrop
      rw [multiFixLoop]
      simp only [Nat.zero_add, beq_self_eq_true, if_pos, hkw]
      rw [ih 1 hdrop1]
      rw [htargets]
      simp [select_children, whitespace_run_after, List.zip_cons_cons]
    | succ m =>
      have hm : m < info.select_targets.length := by omega
      have hgetm : info.select_targets.get? m = some (info.select_targets[m]) := by
        rw [List.get?_eq_getElem?, List.getElem?_eq_getElem hm]
      have hdm : info.select_targets.drop m =
          info.select_targets[m] :: tgt :: rest := by
        rw [List.drop_eq_getElem_cons hm, hdrop]
      rw [multiFixLoop]
      have hne : (m + 1 == 0) = false := by simp
      rw [hne]
      simp only [Bool.false_eq_true, if_false, Nat.add_sub_cancel, hgetm]
      rw [ih (m + 2) (by simpa using hdrop1)]
      have hdkw : (kw :: info.select_targets).drop (m + 1) = info.select_targets.drop m := by
        simp [List.drop_succ_cons]
      have hdkw2 : (kw :: info.select_targets).drop (m + 2) =
          info.select_targets.drop (m + 1) := by
        simp [List.drop_succ_cons]
      rw [hdkw, hdkw2, hdm, hdrop, List.zip_cons_cons]
      simp [select_children, whitespace_run_after]

/-! ### Main theorems about `Rule_L036._eval` -/

/-- C9: for every select clause with more than one select target whose
direct children already contain at least one newline, the rule's
evaluation returns no result — the multi-target fix fires only when no
newline child exists at all. -/
theorem L036_multi_target_existing_newline_no_result
    (segment : Segment) (parent_stack : List Segment)
    (hsc : segment.is_type "select_clause" = true)
    (hlen : 1 < (get_indexes segment).select_targets.length)
    (hnl : ∃ s ∈ segment.segments, s.is_type "newline" = true) :
    Rule_L036_eval segment parent_stack = none := by
  have hfnl : (get_indexes segment).first_new_line_idx ≠ -1 := by
    intro hcontr
    rw [get_indexes,
      getIndexesLoop_fnl_eq_neg_one segment.segments 0 (by omega)] at hcontr
    obtain ⟨-, hno⟩ := hcontr
    rw [hasNewline, List.any_eq_false] at hno
    obtain ⟨s, hmem, hs⟩ := hnl
    exact hno s hmem hs
  have h1 : ((get_indexes segment).select_targets.length == 1) = false := by
    simp only [beq_eq_false_iff_ne, ne_eq]
    omega
  have hfnlb : ((get_indexes segment).first_new_line_idx == -1) = false := by
    simpa [beq_eq_false_iff_ne] using hfnl
  rw [Rule_L036_eval]
  simp only [hsc, if_true, h1, Bool.false_eq_true, if_false, if_pos hlen]
  rw [eval_multiple_select_target_elements, hfnlb]
  simp

/-- C10: for every select clause with zero select-target children the
rule's evaluation returns no result, the computed info has
`first_select_target_idx = -1` and an empty target list, and each
index field of `SelectTargetsInfo` is `-1` exactly when no child
matching its criterion exists. -/
theorem L036_no_select_target_no_result
    (segment : Segment) (parent_stack : List Segment)
    (hsc : segment.is_type "select_clause" = true)
    (hz : ∀ s ∈ segment.segments, s.is_type "select_clause_element" = false) :
    Rule_L036_eval segment parent_stack = none ∧
    (get_indexes segment).first_select_target_idx = -1 ∧
    (get_indexes segment).select_targets = [] ∧
    ((get_indexes segment).select_idx = -1 ↔
      hasSelectKeyword segment.segments = false) ∧
    ((get_indexes segment).first_new_line_idx = -1 ↔
      hasNewline segment.segments = false) ∧
    ((get_indexes segment).first_select_target_idx = -1 ↔
      hasSelectTarget segment.segments = false) ∧
    ((get_indexes segment).first_whitespace_idx = -1 ↔
      hasWhitespaceAfterNewline segment.segments = false) := by
  have htargets : (get_indexes segment).select_targets = [] := by
    rw [get_indexes, getIndexesLoop_select_targets]
    simp only [List.nil_append, List.filter_eq_nil_iff]
    intro s hmem
    simp [hz s hmem]
  have hst : hasSelectTarget segment.segments = false := by
    rw [hasSelectTarget, List.any_eq_false]
    intro s hmem
    simp [hz s hmem]
  refine ⟨?_, ?_, htargets, ?_, ?_, ?_, ?_⟩
  · rw [Rule_L036_eval]
    simp [hsc, htargets]
  · rw [get_indexes, getIndexesLoop_fst_eq_neg_one segment.segments 0 (by omega)]
    exact ⟨rfl, hst⟩
  · rw [get_indexes, getIndexesLoop_select_idx_eq_neg_one segment.segments 0 (by omega)]
    simp
  · rw [get_indexes, getIndexesLoop_fnl_eq_neg_one segment.segments 0 (by omega)]
    simp
  · rw [get_indexes, getIndexesLoop_fst_eq_neg_one segment.segments 0 (by omega)]
    simp
  · rw [get_indexes, getIndexesLoop_fws_eq_neg_one segment.segments 0 (by omega)]
    simp

/-- C5: for every select clause with more than one select target and
no newline among its direct children (and a SELECT keyword child to
scan from), the rule returns a result anchored at the clause whose
fixes, for each target in order, delete every whitespace child
encountered after the previous target (the SELECT keyword for the
first), scanning across whitespace, comma and meta children, and then
create a newline before that target. -/
theorem L036_multi_target_no_newline_fixes
    (segment : Segment) (parent_stack : List Segment)
    (hsc : segment.is_type "select_clause" = true)
    (hlen : 1 < (get_indexes segment).select_targets.length)
    (hnl : ∀ s ∈ segment.segments, s.is_type "newline" = false)
    (hkw : ∃ s ∈ segment.segments, isSelectKeyword s = true) :
    ∃ kw, segment.segments.get? (get_indexes segment).select_idx.toNat = some kw ∧
      isSelectKeyword kw = true ∧
      Rule_L036_eval segment parent_stack =
        some { anchor := segment,
               fixes := claim_multi_fixes segment kw (get_indexes segment).select_targets,
               description := none } := by
  have hfnl : (get_indexes segment).first_new_line_idx = -1 := by
    rw [get_indexes, getIndexesLoop_fnl_eq_neg_one segment.segments 0 (by omega)]
    refine ⟨rfl, ?_⟩
    rw [hasNewline, List.any_eq_false]
    intro s hmem
    simp [hnl s hmem]
  obtain h | ⟨k, kw, hget, hkwt, hval⟩ :=
    getIndexesLoop_select_idx_points segment.segments 0 ⟨-1, -1, -1, -1, []⟩
  · exfalso
    have hneg : (get_indexes segment).select_idx = -1 := by rw [get_indexes, h]
    rw [get_indexes,
      getIndexesLoop_select_idx_eq_neg_one segment.segments 0 (by omega)] at hneg
    obtain ⟨-, hno⟩ := hneg
    rw [hasSelectKeyword, List.any_eq_false] at hno
    obtain ⟨s, hmem, hs⟩ := hkw
    exact hno s hmem hs
  · have hsel : (get_indexes segment).select_idx = (k : Int) := by
      rw [get_indexes, hval]
      simp
    have hpy : pyGet segment.segments (get_indexes segment).select_idx = some kw := by
      rw [pyGet, hsel, if_pos (Int.natCast_nonneg k), Int.toNat_natCast]
      exact hget
    refine ⟨kw, ?_, hkwt, ?_⟩
    · rw [hsel, Int.toNat_natCast]
      exact hget
    · have h1 : ((get_indexes segment).select_targets.length == 1) = false := by
        simp only [beq_eq_false_iff_ne, ne_eq]
        omega
      have hfnlb : ((get_indexes segment).first_new_line_idx == -1) = true := by
        simp [hfnl]
      rw [Rule_L036_eval]
      simp only [hsc, if_true, h1, Bool.false_eq_true, if_false, if_pos hlen]
      rw [eval_multiple_select_target_elements, hfnlb]
      simp only [if_true]
      rw [multiFixLoop_eq segment (get_indexes segment) kw hpy
        (get_indexes segment).select_targets 0 rfl]
      simp [claim_multi_fixes]

/-- C4 (amended): for every select clause with exactly one select
target, (a) if some target contains a wildcard expression the rule
returns no result, and (b) if no target contains a wildcard and the
first newline child lies strictly between the SELECT keyword index and
the first select target index, the rule returns a result anchored at
the clause whose fixes replace that first newline with whitespace, the
target and a newline, delete the target from its original position,
and additionally delete the newline immediately following the clause
in its parent select statement when one exists. -/
theorem L036_single_target_result
    (segment : Segment) (parent_stack : List Segment)
    (hsc : segment.is_type "select_clause" = true)
    (h1 : (get_indexes segment).select_targets.length = 1) :
    (containsWildcardTarget segment = true →
      Rule_L036_eval segment parent_stack = none) ∧
    (containsWildcardTarget segment = false →
      (get_indexes segment).select_idx < (get_indexes segment).first_new_line_idx →
      (get_indexes segment).first_new_line_idx
        < (get_indexes segment).first_select_target_idx →
      ∃ nl tgt,
        segment.segments.get? (get_indexes segment).first_new_line_idx.toNat = some nl ∧
        segment.segments.get?
          (get_indexes segment).first_select_target_idx.toNat = some tgt ∧
        nl.is_type "newline" = true ∧
        tgt.is_type "select_clause_element" = true ∧
        Rule_L036_eval segment parent_stack =
          some { anchor := segment,
                 fixes := [LintFix.mk .edit nl
                     [make_whitespace " " nl.pos_marker, tgt, make_newline nl.pos_marker],
                   LintFix.mk .delete tgt []]
                   ++ following_newline_fix parent_stack segment,
                 description := none }) := by
  have h1b : ((get_indexes segment).select_targets.length == 1) = true := by
    simp [h1]
  have heval : Rule_L036_eval segment parent_stack =
      eval_single_select_target_element (get_indexes segment) segment parent_stack := by
    rw [Rule_L036_eval]
    simp [hsc, h1b]
  constructor
  · intro hw
    rw [containsWildcardTarget] at hw
    rw [heval, eval_single_select_target_element]
    simp only [hw, if_true]
  · intro hw hi1 hi2
    rw [containsWildcardTarget] at hw
    have hselge : -1 ≤ (get_indexes segment).select_idx := by
      obtain h | ⟨k, kw, -, -, hval⟩ :=
        getIndexesLoop_select_idx_points segment.segments 0 ⟨-1, -1, -1, -1, []⟩
      · rw [get_indexes, h]
      · rw [get_indexes, hval]
        omega
    have hfnlge : 0 ≤ (get_indexes segment).first_new_line_idx := by omega
    obtain h | ⟨k, nl, hget, hnlt, hval⟩ :=
      getIndexesLoop_fnl_points segment.segments 0 ⟨-1, -1, -1, -1, []⟩
    · exfalso
      have : (get_indexes segment).first_new_line_idx = -1 := by rw [get_indexes, h]
      omega
    have hfnlk : (get_indexes segment).first_new_line_idx = (k : Int) := by
      rw [get_indexes, hval]
      simp
    obtain h | ⟨m, tgt, hgett, htt, hvalt⟩ :=
      getIndexesLoop_fst_points segment.segments 0 ⟨-1, -1, -1, -1, []⟩
    · exfalso
      have : (get_indexes segment).first_select_target_idx = -1 := by rw [get_indexes, h]
      omega
    have hfstm : (get_indexes segment).first_select_target_idx = (m : Int) := by
      rw [get_indexes, hvalt]
      simp
    have hpy1 : pyGet segment.segments (get_indexes segment).first_new_line_idx
        = some nl := by
      rw [pyGet, hfnlk, if_pos (Int.natCast_nonneg k), Int.toNat_natCast]
      exact hget
    have hpy2 : pyGet segment.segments (get_indexes segment).first_select_target_idx
        = some tgt := by
      rw [pyGet, hfstm, if_pos (Int.natCast_nonneg m), Int.toNat_natCast]
      exact hgett
    refine ⟨nl, tgt, ?_, ?_, hnlt, htt, ?_⟩
    · rw [hfnlk, Int.toNat_natCast]
      exact hget
    · rw [hfstm, Int.toNat_natCast]
      exact hgett
    · rw [heval, eval_single_select_target_element]
      simp only [hw, Bool.false_eq_true, if_false]
      rw [if_pos (And.intro hi1 hi2), hpy1, hpy2]
      rcases hlast : parent_stack.getLast? with - | stmt
      · simp [following_newline_fix, hlast]
      · by_cases hty : (stmt.typ == "select_statement") = true
        · rcases hidx : pyIndex stmt.segments segment with - | idx
          · simp [following_newline_fix, hlast, hty, hidx]
          · rcases hnxt : stmt.segments[idx + 1]? with - | nxt
            · simp [following_newline_fix, hlast, hty, hidx, hnxt]
            · by_cases hnl2 : (nxt.typ == "newline") = true <;>
                simp [following_newline_fix, hlast, hty, hidx, hnxt, hnl2]
        · simp [following_newline_fix, hlast, hty]

/-! ### Fix loop: runaway limit (C1) -/

/-- Auxiliary: when every pass up to the remaining budget still
reports fixable results, the budgeted loop returns the original tree. -/
theorem fix_loop_aux_runaway (rule : FixLoopRule) (original : Segment) :
    ∀ (fuel : Nat) (tree : Segment),
    (∀ i, i < fuel → rule.has_fixable (iterate_fixes rule i tree) = true) →
    fix_loop_aux rule original fuel tree = original := by
  intro fuel
  induction fuel with
  | zero => intro tree _; rfl
  | succ n ih =>
    intro tree h
    rw [fix_loop_aux]
    have h0 : rule.has_fixable tree = true := h 0 (by omega)
    rw [h0]
    simp only [if_true]
    exact ih (rule.apply_fixes tree) (fun i hi => h (i + 1) (by omega))

/-- C1: when the fix loop reaches the configured runaway limit (every
iteration up to the limit still produces fixable results), the run
discards all accumulated fixes and returns the original tree — its raw
text equals the original input, never a partially fixed tree. -/
theorem fix_loop_runaway_returns_original
    (rule : FixLoopRule) (runaway_limit : Nat) (tree : Segment)
    (h : ∀ i, i < runaway_limit →
      rule.has_fixable (iterate_fixes rule i tree) = true) :
    fix_loop rule runaway_limit tree = tree ∧
    (fix_loop rule runaway_limit tree).rawAll = tree.rawAll := by
  have hs : fix_loop rule runaway_limit tree = tree :=
    fix_loop_aux_runaway rule tree runaway_limit tree h
  exact ⟨hs, by rw [hs]⟩

/-- Witness for C1: an always-proposing rule with `runaway_limit = 5`
on the tree of `SELECT * FROM foo` returns the tree with raw text
unchanged. -/
theorem fix_loop_runaway_returns_original_witness :
    (∀ i, i < 5 →
      always_fix_rule.has_fixable (iterate_fixes always_fix_rule i tree_select_star)
        = true) ∧
    (fix_loop always_fix_rule 5 tree_select_star = tree_select_star ∧
      (fix_loop always_fix_rule 5 tree_select_star).rawAll = tree_select_star.rawAll) ∧
    tree_select_star.rawAll = "SELECT * FROM foo" :=
  ⟨by decide,
   fix_loop_runaway_returns_original always_fix_rule 5 tree_select_star (by decide),
   by decide⟩

/-! ### Rule evaluation faults become single violations (C2) -/

/-- C2: for every rule whose evaluation always fails, the engine
catches the failure and reports exactly the single violation
`(code, 1, 1)` instead of aborting the run. -/
theorem rule_exception_caught_to_violation
    (rule : EvalRule) (tree : Segment)
    (h : ∀ t, ∃ msg, rule.eval t = Except.error msg) :
    lint_with_rule rule tree = [(rule.code, 1, 1)] := by
  obtain ⟨msg, hmsg⟩ := h tree
  rw [lint_with_rule, hmsg]

/-- Witness for C2: linting `select 1` with the always-raising rule
`T000` yields exactly `[(T000, 1, 1)]`. -/
theorem rule_exception_caught_to_violation_witness :
    (∀ t, ∃ msg, raising_rule.eval t = Except.error msg) ∧
    lint_with_rule raising_rule tree_select_lower_1 = [("T000", 1, 1)] :=
  ⟨fun _ => ⟨"Catch me or I will deny any linting results from you", rfl⟩,
   rule_exception_caught_to_violation raising_rule tree_select_lower_1
     (fun _ => ⟨"Catch me or I will deny any linting results from you", rfl⟩)⟩

/-! ### Unparsable-region filtering (C3) -/

/-- C3: the root-only rule `T002`, which flags every raw code node,
yields at least one violation on the parsable input `SELECT 1` and
zero violations on the unparsable input `asd asdf sdfg` (violations
anchored in unparsable regions are filtered from rule results). -/
theorem unparsable_filtering_T002 :
    0 < (lint_with_T002 tree_select_1).length ∧
    lint_with_T002 tree_unparsable = [] := by decide

/-! ### Rule selection: code precedence (C6) -/

/-- C6: whenever some registered rule has the selection token as its
code, token resolution returns exactly the rules with that code — a
rule whose name, alias or group merely equals the token is never
selected by it. -/
theorem token_resolution_prefers_code
    (rules : List RuleMeta) (token : String)
    (h : ∃ r ∈ rules, r.code = token) :
    matching_rules rules token = rules.filter (fun r => r.code == token) ∧
    ∀ r ∈ matching_rules rules token, r.code = token := by
  have hany : (rules.any fun r => r.code == token) = true := by
    rw [List.any_eq_true]
    obtain ⟨r, hmem, hcode⟩ := h
    exact ⟨r, hmem, by simp [hcode]⟩
  have hfil : matching_rules rules token = rules.filter (fun r => r.code == token) := by
    rw [matching_rules, if_pos hany]
  refine ⟨hfil, ?_⟩
  intro r hmem
  rw [hfil] at hmem
  simpa using (List.mem_filter.mp hmem).2

/-- Witness for C6: with `T010`, `T011` and a rule named `T011` (code
`T012`) registered, the token `T011` resolves by code, and selecting
`T010,T011` yields exactly the codes `T010` and `T011`. -/
theorem token_resolution_prefers_code_witness :
    (∃ r ∈ selection_test_rules, r.code = "T011") ∧
    (matching_rules selection_test_rules "T011" =
        selection_test_rules.filter (fun r => r.code == "T011") ∧
      ∀ r ∈ matching_rules selection_test_rules "T011", r.code = "T011") ∧
    get_rulepack_codes selection_test_rules "T010,T011" "" = ["T010", "T011"] :=
  ⟨by decide,
   token_resolution_prefers_code selection_test_rules "T011" (by decide),
   by decide⟩

/-! ### Registration requires the group `all` (C7) -/

/-- C7: registering a rule class succeeds exactly when its groups
attribute is present, non-empty and contains the literal group `all`;
a class with the attribute absent, empty, or lacking `all` fails at
registration time. -/
theorem register_requires_all_group
    (ruleset : List RuleClassMeta) (rule : RuleClassMeta) :
    except_is_ok (register ruleset rule) = true ↔
      ∃ gs, rule.groups = some gs ∧ gs ≠ [] ∧ "all" ∈ gs := by
  rcases hg : rule.groups with - | gs
  · simp [register, hg, except_is_ok]
  · rw [register, hg]
    by_cases he : gs.isEmpty
    · have hnil : gs = [] := by simpa using he
      subst hnil
      simp [except_is_ok]
    · have hne : gs ≠ [] := by simpa using he
      by_cases hall : gs.contains "all"
      · have hmem : "all" ∈ gs := by simpa using hall
        simp [he, hall, except_is_ok, hne, hmem]
      · have hnmem : "all" ∉ gs := by simpa using hall
        simp [he, hall, except_is_ok, hnmem]

/-! ### Enum-validated configuration keywords (C8) -/

/-- C8: for every configuration assigning, to a keyword declared with
an enumeration in the validation table, a value outside that
enumeration, building the rule pack fails with a validation error
(before any linting occurs). -/
theorem improper_config_rejected
    (table : List ConfigKeywordSpec) (configs : List (String × String))
    (k v : String) (sp : ConfigKeywordSpec)
    (hmem : (k, v) ∈ configs)
    (hfind : table.find? (fun s => s.keyword == k) = some sp)
    (hv : sp.allowed.contains v = false) :
    ∃ msg, validate_configs table configs = Except.error msg := by
  induction configs with
  | nil => cases hmem
  | cons head rest ih =>
    obtain ⟨k2, v2⟩ := head
    rw [validate_configs]
    rcases List.mem_cons.mp hmem with heq | hmem2
    · obtain ⟨hk, hv2⟩ := Prod.mk.injEq .. ▸ heq
      subst hk
      subst hv2
      rw [hfind]
      have hvm : ¬ v ∈ sp.allowed := by simpa using hv
      simp [hvm]
    · rcases hf2 : table.find? (fun s => s.keyword == k2) with - | sp2
      · rw [hf2]
        exact ih hmem2
      · rw [hf2]
        by_cases hc : sp2.allowed.contains v2 = true
        · simp only [hc, if_true]
          exact ih hmem2
        · have hcm : ¬ v2 ∈ sp2.allowed := by simpa using hc
          simp [hcm]

/-- Witness for C8: `capitalisation_policy = blah` is rejected by the
modelled validation table. -/
theorem improper_config_rejected_witness :
    (("capitalisation_policy", "blah") ∈ [("capitalisation_policy", "blah")] ∧
      rules_validation_table.find? (fun s => s.keyword == "capitalisation_policy") =
        some { keyword := "capitalisation_policy",
               allowed := ["consistent", "upper", "lower", "capitalise"] } ∧
      ({ keyword := "capitalisation_policy",
         allowed := ["consistent", "upper", "lower", "capitalise"] :
           ConfigKeywordSpec }).allowed.contains "blah" = false) ∧
    ∃ msg, validate_configs rules_validation_table
      [("capitalisation_policy", "blah")] = Except.error msg :=
  ⟨⟨by decide, by decide, by decide⟩,
   improper_config_rejected rules_validation_table
     [("capitalisation_policy", "blah")] "capitalisation_policy" "blah"
     { keyword := "capitalisation_policy",
       allowed := ["consistent", "upper", "lower", "capitalise"] }
     (by decide) (by decide) (by decide)⟩

/-! ### Counterexample and witnesses for the L036 claims -/

/-- Counterexample to C4 as stated: `cex_clause` is a select clause
with exactly one select target and no wildcard, and a newline child
(index 2) lies strictly between the SELECT keyword child (index 1) and
that target (index 3) — yet the rule returns no result, because the
first newline of the clause (index 0) precedes the SELECT keyword and
the code compares the first newline index only. -/
theorem L036_single_target_claim_counterexample :
    cex_clause.is_type "select_clause" = true ∧
    (get_indexes cex_clause).select_targets = [cex_target] ∧
    containsWildcardTarget cex_clause = false ∧
    cex_clause.segments.get? 1 = some kw_select ∧
    isSelectKeyword kw_select = true ∧
    cex_clause.segments.get? 3 = some cex_target ∧
    cex_target.is_type "select_clause_element" = true ∧
    cex_clause.segments.get? 2 = some cex_newline_2 ∧
    cex_newline_2.is_type "newline" = true ∧
    Rule_L036_eval cex_clause [] = none := by decide

/-- Witness for C4 (amended): on `SELECT\n  a` inside a statement
followed by a newline, the hypotheses hold and the rule produces the
relocation fixes. -/
theorem L036_single_target_result_witness :
    (w4_clause.is_type "select_clause" = true ∧
      (get_indexes w4_clause).select_targets.length = 1 ∧
      containsWildcardTarget w4_clause = false ∧
      (get_indexes w4_clause).select_idx < (get_indexes w4_clause).first_new_line_idx ∧
      (get_indexes w4_clause).first_new_line_idx
        < (get_indexes w4_clause).first_select_target_idx) ∧
    (∃ nl tgt,
      w4_clause.segments.get? (get_indexes w4_clause).first_new_line_idx.toNat
        = some nl ∧
      w4_clause.segments.get?
        (get_indexes w4_clause).first_select_target_idx.toNat = some tgt ∧
      nl.is_type "newline" = true ∧
      tgt.is_type "select_clause_element" = true ∧
      Rule_L036_eval w4_clause [w4_stmt] =
        some { anchor := w4_clause,
               fixes := [LintFix.mk .edit nl
                   [make_whitespace " " nl.pos_marker, tgt, make_newline nl.pos_marker],
                 LintFix.mk .delete tgt []]
                 ++ following_newline_fix [w4_stmt] w4_clause,
               description := none }) :=
  ⟨by decide,
   (L036_single_target_result w4_clause [w4_stmt] (by decide) (by decide)).2
     (by decide) (by decide) (by decide)⟩

/-- Witness for C5: on `SELECT a, b` the hypotheses hold and the rule
produces the per-target newline insertions and whitespace deletions. -/
theorem L036_multi_target_no_newline_fixes_witness :
    (w5_clause.is_type "select_clause" = true ∧
      1 < (get_indexes w5_clause).select_targets.length ∧
      (∀ s ∈ w5_clause.segments, s.is_type "newline" = false) ∧
      (∃ s ∈ w5_clause.segments, isSelectKeyword s = true)) ∧
    (∃ kw, w5_clause.segments.get? (get_indexes w5_clause).select_idx.toNat
        = some kw ∧
      isSelectKeyword kw = true ∧
      Rule_L036_eval w5_clause [] =
        some { anchor := w5_clause,
               fixes := claim_multi_fixes w5_clause kw
                 (get_indexes w5_clause).select_targets,
               description := none }) :=
  ⟨by decide,
   L036_multi_target_no_newline_fixes w5_clause [] (by decide) (by decide)
     (by decide) (by decide)⟩

/-- Witness for C9: two targets with an existing newline child yield
no result. -/
theorem L036_multi_target_existing_newline_no_result_witness :
    (w9_clause.is_type "select_clause" = true ∧
      1 < (get_indexes w9_clause).select_targets.length ∧
      (∃ s ∈ w9_clause.segments, s.is_type "newline" = true)) ∧
    Rule_L036_eval w9_clause [] = none :=
  ⟨by decide,
   L036_multi_target_existing_newline_no_result w9_clause [] (by decide)
     (by decide) (by decide)⟩

/-- Witness for C10: a select clause with no select-target child
yields no result and the sentinel characterisations hold. -/
theorem L036_no_select_target_no_result_witness :
    (w10_clause.is_type "select_clause" = true ∧
      (∀ s ∈ w10_clause.segments, s.is_type "select_clause_element" = false)) ∧
    (Rule_L036_eval w10_clause [] = none ∧
      (get_indexes w10_clause).first_select_target_idx = -1 ∧
      (get_indexes w10_clause).select_targets = [] ∧
      ((get_indexes w10_clause).select_idx = -1 ↔
        hasSelectKeyword w10_clause.segments = false) ∧
      ((get_indexes w10_clause).first_new_line_idx = -1 ↔
        hasNewline w10_clause.segments = false) ∧
      ((get_indexes w10_clause).first_select_target_idx = -1 ↔
        hasSelectTarget w10_clause.segments = false) ∧
      ((get_indexes w10_clause).first_whitespace_idx = -1 ↔
        hasWhitespaceAfterNewline w10_clause.segments = false)) :=
  ⟨by decide,
   L036_no_select_target_no_result w10_clause [] (by decide) (by decide)⟩
